import Mathlib

/-!
Shallow embedding of the celestial source association engine of
`tkp/db/general.py`: the coordinate/uncertainty transformer and bulk insert
(`insert_extracted_sources`), the forced-fit deduplication pass
(`filter_userdetections_extracted_sources`), the light-curve query
(`lightcurve` / `lightcurve_query`) and the catalog cross-match
(`match_nearests_in_catalogs`).

The SQL tables become lists of records in a `Database` value; each SQL query
becomes a Lean function on `Database`.  Floating point numbers are modelled
as real numbers (timestamps, which are only compared, as rationals).  The
helper functions `substitute_inf`, `alpha` (the RA inflation function, called
`alpha_inflate` on the Python side and `alpha` inside SQL) and `eq_to_cart`
live in `tkp/utility`, outside the files at hand, and are modelled from the
spec; their doc comments say so.
-/

namespace TKP

open Real

/-- Degrees to radians, as SQL's RADIANS() and Python's math.radians. -/
noncomputable def radians (x : ℝ) : ℝ := x * Real.pi / 180

/-- Modelled from the spec: `tkp.utility.substitute_inf` is not under src/.
Spec §4.1 step 1: "Replace an infinite/unconstrained `error_radius` with
360.0 (degrees)".  A non-finite float has no real-number counterpart, so an
unconstrained value is modelled as `none` and the substitute fills it in. -/
noncomputable def substitute_inf (value : Option ℝ) (sub : ℝ) : ℝ := value.getD sub

/-- Modelled from the spec: the RA inflation function (`alpha_inflate` in
`tkp.utility.coordinates`, `alpha()` inside the SQL) is not under src/.
Spec §4.1 step 2: "the inflation function converts an east-west angular
distance to an RA distance at the given declination (accounts for meridian
convergence)".  The convergence factor of a meridian at declination `decl`
is `cos(radians decl)`, so an east-west distance `theta` spans
`theta / cos(radians decl)` in RA. -/
noncomputable def alpha (theta decl : ℝ) : ℝ := theta / Real.cos (radians decl)

/-- Modelled from the spec: `tkp.utility.coordinates.eq_to_cart` is not under
src/.  Spec §4.1 step 6: "(x,y,z) = unit_sphere(ra, decl)": the Cartesian
unit vector of the sky position (ra, decl), both in degrees. -/
noncomputable def eq_to_cart (ra decl : ℝ) : ℝ × ℝ × ℝ :=
  (Real.cos (radians decl) * Real.cos (radians ra),
   Real.cos (radians decl) * Real.sin (radians ra),
   Real.sin (radians decl))

/-- Scalar product of two modelled Cartesian positions (as the SQL writes
`c.x * r.x + c.y * r.y + c.z * r.z`). -/
noncomputable def cartDot (p q : ℝ × ℝ × ℝ) : ℝ := p.1 * q.1 + p.2.1 * q.2.1 + p.2.2 * q.2.2

/-- One raw sourcefinder detection: the 15 fields, in the fixed order of the
`insert_extracted_sources` docstring.  `error_radius` is an `Option` because
the Python value may be a float infinity (then `substitute_inf` replaces it,
see there). -/
structure Detection where
  ra : ℝ
  decl : ℝ
  ra_fit_err : ℝ
  decl_fit_err : ℝ
  f_peak : ℝ
  f_peak_err : ℝ
  f_int : ℝ
  f_int_err : ℝ
  det_sigma : ℝ
  semimajor : ℝ
  semiminor : ℝ
  pa : ℝ
  ew_sys_err : ℝ
  ns_sys_err : ℝ
  error_radius : Option ℝ

/-- One row of the `extractedsource` table, with the columns the embedded
queries touch (the full INSERT column list of `insert_extracted_sources`,
plus the row id the database assigns). -/
structure ExtractedSource where
  id : ℕ
  ra : ℝ
  decl : ℝ
  ra_fit_err : ℝ
  decl_fit_err : ℝ
  f_peak : ℝ
  f_peak_err : ℝ
  f_int : ℝ
  f_int_err : ℝ
  det_sigma : ℝ
  semimajor : ℝ
  semiminor : ℝ
  pa : ℝ
  ew_sys_err : ℝ
  ns_sys_err : ℝ
  error_radius : ℝ
  ra_err : ℝ
  decl_err : ℝ
  uncertainty_ew : ℝ
  uncertainty_ns : ℝ
  image : ℕ
  zone : ℤ
  x : ℝ
  y : ℝ
  z : ℝ
  racosdecl : ℝ
  extract_type : ℕ

/-- One row of `assocxtrsource` (the association edges the light-curve query
walks). -/
structure AssocXtrSource where
  runcat : ℕ
  xtrsrc : ℕ

/-- One row of `image`, with the columns `lightcurve_query` reads.  The
timestamp `taustart_ts` is only ever compared (ORDER BY), so it is modelled
as a rational. -/
structure ImageRow where
  id : ℕ
  taustart_ts : ℚ
  tau_time : ℝ
  band : ℕ
  stokes : ℕ

/-- One row of `frequencyband`, with the columns `lightcurve_query` reads. -/
structure FrequencyBand where
  id : ℕ
  freq_central : ℝ

/-- One row of `runningcatalog`, with the columns
`match_nearests_in_catalogs` reads. -/
structure RunningCatalog where
  id : ℕ
  wm_ra : ℝ
  wm_decl : ℝ
  wm_uncertainty_ew : ℝ
  wm_uncertainty_ns : ℝ
  x : ℝ
  y : ℝ
  z : ℝ

/-- One row of `catalogedsource`, with the columns
`match_nearests_in_catalogs` reads. -/
structure CatalogedSource where
  id : ℕ
  catsrcname : String
  catalog : ℕ
  ra : ℝ
  decl : ℝ
  uncertainty_ew : ℝ
  uncertainty_ns : ℝ
  zone : ℤ
  x : ℝ
  y : ℝ
  z : ℝ

/-- One row of `catalog`. -/
structure Catalog where
  id : ℕ
  name : String

/-- The store: the four relations the embedded queries touch, plus the
counter from which the database assigns fresh `extractedsource` ids. -/
structure Database where
  extractedsource : List ExtractedSource
  assocxtrsource : List AssocXtrSource
  image : List ImageRow
  frequencyband : List FrequencyBand
  runningcatalog : List RunningCatalog
  catalog : List Catalog
  catalogedsource : List CatalogedSource
  nextId : ℕ

/-- The numeric `extract_type` tag `insert_extracted_sources` stores for each
recognized extract string, `none` for an unrecognized one (the `ValueError`
branch). -/
def extract_type_code : String → Option ℕ
  | "blind" => some 0
  | "ff_nd" => some 1
  | "ff_ms" => some 2
  | _ => none

/-- The per-detection enrichment of `insert_extracted_sources`: the
sentinel substitution on `error_radius`, the error quadratures, the zone,
the Cartesian coordinates and `ra*cos(radians(decl))`, and the numeric
extract tag, exactly as the loop body computes them (`id` is the row id the
database assigns at insertion). -/
noncomputable def enrich (image_id : ℕ) (code : ℕ) (rowid : ℕ) (d : Detection) :
    ExtractedSource :=
  let er := substitute_inf d.error_radius 360.0
  { id := rowid
    ra := d.ra
    decl := d.decl
    ra_fit_err := d.ra_fit_err
    decl_fit_err := d.decl_fit_err
    f_peak := d.f_peak
    f_peak_err := d.f_peak_err
    f_int := d.f_int
    f_int_err := d.f_int_err
    det_sigma := d.det_sigma
    semimajor := d.semimajor
    semiminor := d.semiminor
    pa := d.pa
    ew_sys_err := d.ew_sys_err
    ns_sys_err := d.ns_sys_err
    error_radius := er
    ra_err := Real.sqrt (d.ra_fit_err ^ 2 + alpha (d.ew_sys_err / 3600) d.decl ^ 2)
    decl_err := Real.sqrt (d.decl_fit_err ^ 2 + (d.ns_sys_err / 3600) ^ 2)
    uncertainty_ew := Real.sqrt (d.ew_sys_err ^ 2 + er ^ 2) / 3600
    uncertainty_ns := Real.sqrt (d.ns_sys_err ^ 2 + er ^ 2) / 3600
    image := image_id
    zone := ⌊d.decl⌋
    x := (eq_to_cart d.ra d.decl).1
    y := (eq_to_cart d.ra d.decl).2.1
    z := (eq_to_cart d.ra d.decl).2.2
    racosdecl := d.ra * Real.cos (radians d.decl)
    extract_type := code }

/-- Enrich a whole batch, assigning consecutive row ids from `base`. -/
noncomputable def enrichAll (image_id code base : ℕ) :
    List Detection → List ExtractedSource
  | [] => []
  | d :: ds => enrich image_id code base d :: enrichAll image_id code (base + 1) ds

/-- The bulk insert `insert_extracted_sources(image_id, results, extract)`:
an empty batch is a no-op reporting zero rows; an unrecognized extract tag
raises `ValueError` while building the VALUES list, before the INSERT runs,
so the store comes back unchanged; otherwise the enriched rows are appended
in one INSERT and their count reported. -/
noncomputable def insert_extracted_sources (db : Database) (image_id : ℕ)
    (results : List Detection) (extract : String) : Database × Except String ℕ :=
  if results.isEmpty then (db, Except.ok 0)
  else
    match extract_type_code extract with
    | some code =>
        let rows := enrichAll image_id code db.nextId results
        ({ db with
            extractedsource := db.extractedsource ++ rows
            nextId := db.nextId + rows.length },
         Except.ok rows.length)
    | none =>
        (db, Except.error ("Not a valid extractedsource insert type: " ++ extract))

open scoped Classical

/-- SQL's DEGREES(): radians to degrees. -/
noncomputable def degreesOf (x : ℝ) : ℝ := x * 180 / Real.pi

/-- The zone-band conjunct shared by the dedup pass and the cross-match:
`zone BETWEEN CAST(FLOOR(centre - theta) AS INTEGER) AND CAST(FLOOR(centre + theta) AS INTEGER)`. -/
def zoneBand (centre theta : ℝ) (zone : ℤ) : Prop :=
  ⌊centre - theta⌋ ≤ zone ∧ zone ≤ ⌊centre + theta⌋

/-- The declination-band conjunct: `decl BETWEEN centre - theta AND centre + theta`. -/
def declBand (centre theta decl : ℝ) : Prop :=
  centre - theta ≤ decl ∧ decl ≤ centre + theta

/-- The RA-band conjunct:
`ra BETWEEN centreRa - alpha(theta, centreDecl) AND centreRa + alpha(theta, centreDecl)`. -/
def raBand (centreRa centreDecl theta ra : ℝ) : Prop :=
  centreRa - alpha theta centreDecl ≤ ra ∧ ra ≤ centreRa + alpha theta centreDecl

/-- The De Ruiter distance between two `extractedsource` rows as the SQRT
term of `filter_userdetections_extracted_sources` computes it: midpoint
declination `(x0.decl + x1.decl)/2` weighting on the RA axis, each axis
divided by the summed squared uncertainties. -/
noncomputable def deRuiterRows (x0 x1 : ExtractedSource) : ℝ :=
  Real.sqrt ((x0.ra - x1.ra) * Real.cos (radians ((x0.decl + x1.decl) / 2))
               * (x0.ra - x1.ra) * Real.cos (radians ((x0.decl + x1.decl) / 2))
               / (x0.uncertainty_ew * x0.uncertainty_ew
                  + x1.uncertainty_ew * x1.uncertainty_ew)
             + (x0.decl - x1.decl) * (x0.decl - x1.decl)
               / (x0.uncertainty_ns * x0.uncertainty_ns
                  + x1.uncertainty_ns * x1.uncertainty_ns))

/-- The WHERE clause of the subquery of
`filter_userdetections_extracted_sources`, for a fixed outer row `x0`: some
`x1` of the same image with `extract_type IN (0, 1, 2)` lies in the zone,
declination and RA bands around `x0` and has midpoint-declination De Ruiter
distance to `x0` below the cutoff. -/
noncomputable def userdetection_delete_cond (db : Database) (image_id : ℕ)
    (deRuiter_r assoc_theta : ℝ) (x0 : ExtractedSource) : Prop :=
  x0.image = image_id ∧ x0.extract_type = 3 ∧
  ∃ x1 ∈ db.extractedsource,
    x1.image = image_id ∧
    (x1.extract_type = 0 ∨ x1.extract_type = 1 ∨ x1.extract_type = 2) ∧
    zoneBand x0.decl assoc_theta x1.zone ∧
    declBand x0.decl assoc_theta x1.decl ∧
    raBand x0.ra x0.decl assoc_theta x1.ra ∧
    deRuiterRows x0 x1 < deRuiter_r

/-- The deduplication pass `filter_userdetections_extracted_sources`:
`DELETE FROM extractedsource WHERE id IN (SELECT x0.id ...)` — a row
survives exactly when no row `x0` with its id satisfies the delete
condition. -/
noncomputable def filter_userdetections_extracted_sources (db : Database)
    (image_id : ℕ) (deRuiter_r assoc_theta : ℝ) : Database :=
  { db with extractedsource :=
      db.extractedsource.filter fun row =>
        decide (¬ ∃ x0 ∈ db.extractedsource, x0.id = row.id ∧
          userdetection_delete_cond db image_id deRuiter_r assoc_theta x0) }

/-- One row the light-curve query returns: the eight SELECTed columns
`im.taustart_ts, im.tau_time, ex.f_int, ex.f_int_err, ex.id, im.band,
im.stokes, bd.freq_central`, in that order. -/
abbrev LightcurveRow := ℚ × ℝ × ℝ × ℝ × ℕ × ℕ × ℕ × ℝ

/-- The FROM/WHERE part of `lightcurve_query`: every combination of an
extracted source, an association edge, an image and a frequency band where
the edge's runcat is shared with an edge of the queried source, the edge
points at the extracted source, the source sits on the image and the band
is the image's band. -/
noncomputable def lightcurveRows (db : Database) (xtrsrc : ℕ) : List LightcurveRow :=
  db.extractedsource.flatMap fun ex =>
    db.assocxtrsource.flatMap fun ax =>
      db.image.flatMap fun im =>
        db.frequencyband.flatMap fun bd =>
          if (∃ a ∈ db.assocxtrsource, a.xtrsrc = xtrsrc ∧ ax.runcat = a.runcat)
              ∧ ax.xtrsrc = ex.id ∧ ex.image = im.id ∧ bd.id = im.band then
            [(im.taustart_ts, im.tau_time, ex.f_int, ex.f_int_err,
              ex.id, im.band, im.stokes, bd.freq_central)]
          else []

/-- The light-curve query: the selected rows, `ORDER BY im.taustart_ts`. -/
noncomputable def lightcurve (db : Database) (xtrsrcid : ℕ) : List LightcurveRow :=
  (lightcurveRows db xtrsrcid).insertionSort fun p q => p.1 ≤ q.1

/-- One result record of `match_nearests_in_catalogs`, keyed as the
`descriptions` list zips it. -/
structure MatchResult where
  catsrcid : ℕ
  catsrcname : String
  catid : ℕ
  catname : String
  ra : ℝ
  decl : ℝ
  uncertainty_ew : ℝ
  uncertainty_ns : ℝ
  dist_arcsec : ℝ
  assoc_r : ℝ

/-- The De Ruiter distance of the WHERE clause of
`match_nearests_in_catalogs` (and of the §4.3 scorer): the RA offset is
weighted with the cosine of the midpoint declination
`(r.wm_decl + c.decl)/2`, and each axis is divided by the summed squared
uncertainties. -/
noncomputable def deRuiterMidpoint (r : RunningCatalog) (c : CatalogedSource) : ℝ :=
  Real.sqrt ((r.wm_ra - c.ra) * Real.cos (radians ((r.wm_decl + c.decl) / 2))
               * (r.wm_ra - c.ra) * Real.cos (radians ((r.wm_decl + c.decl) / 2))
               / (r.wm_uncertainty_ew * r.wm_uncertainty_ew
                  + c.uncertainty_ew * c.uncertainty_ew)
             + (r.wm_decl - c.decl) * (r.wm_decl - c.decl)
               / (r.wm_uncertainty_ns * r.wm_uncertainty_ns
                  + c.uncertainty_ns * c.uncertainty_ns))

/-- The SELECTed result record for one joined (runningcatalog,
catalogedsource, catalog) triple: note the `assoc_r` column weights the RA
offset with `COS(RADIANS(r.wm_decl))` (not the midpoint declination used in
the WHERE clause), and `distance_arcsec` is the chord formula
`3600 * DEGREES(2 * ASIN(chord / 2))`. -/
noncomputable def matchRow (r : RunningCatalog) (c : CatalogedSource) (k : Catalog) :
    MatchResult :=
  { catsrcid := c.id
    catsrcname := c.catsrcname
    catid := c.catalog
    catname := k.name
    ra := c.ra
    decl := c.decl
    uncertainty_ew := c.uncertainty_ew
    uncertainty_ns := c.uncertainty_ns
    dist_arcsec := 3600 * degreesOf (2 * Real.arcsin (Real.sqrt
        ((r.x - c.x) * (r.x - c.x) + (r.y - c.y) * (r.y - c.y)
         + (r.z - c.z) * (r.z - c.z)) / 2))
    assoc_r := Real.sqrt ((r.wm_ra - c.ra) * Real.cos (radians r.wm_decl)
                 * (r.wm_ra - c.ra) * Real.cos (radians r.wm_decl)
                 / (r.wm_uncertainty_ew * r.wm_uncertainty_ew
                    + c.uncertainty_ew * c.uncertainty_ew)
               + (r.wm_decl - c.decl) * (r.wm_decl - c.decl)
                 / (r.wm_uncertainty_ns * r.wm_uncertainty_ns
                    + c.uncertainty_ns * c.uncertainty_ns)) }

/-- The FROM/WHERE part of `match_nearests_in_catalogs`: the running-source
row with the queried id, joined against every cataloged source that passes
the zone, declination and RA bands, the Cartesian dot-product radius test,
the catalog join, and the midpoint De Ruiter cutoff. -/
noncomputable def match_candidates (db : Database) (runcatid : ℕ)
    (radius deRuiter_r : ℝ) : List (RunningCatalog × CatalogedSource × Catalog) :=
  db.runningcatalog.flatMap fun r =>
    db.catalogedsource.flatMap fun c =>
      db.catalog.flatMap fun k =>
        if r.id = runcatid ∧
            zoneBand r.wm_decl radius c.zone ∧
            declBand r.wm_decl radius c.decl ∧
            raBand r.wm_ra r.wm_decl radius c.ra ∧
            c.x * r.x + c.y * r.y + c.z * r.z > Real.cos (radians radius) ∧
            c.catalog = k.id ∧
            deRuiterMidpoint r c < deRuiter_r then
          [(r, c, k)]
        else []

/-- The ORDER BY of `match_nearests_in_catalogs`: by `c.catalog` first, then
by the selected `assoc_r` column. -/
def matchOrder (a b : MatchResult) : Prop :=
  a.catid < b.catid ∨ (a.catid = b.catid ∧ a.assoc_r ≤ b.assoc_r)

instance : IsTotal MatchResult matchOrder := by
  constructor
  intro a b
  unfold matchOrder
  rcases Nat.lt_trichotomy a.catid b.catid with h | h | h
  · exact Or.inl (Or.inl h)
  · rcases le_total a.assoc_r b.assoc_r with h2 | h2
    · exact Or.inl (Or.inr ⟨h, h2⟩)
    · exact Or.inr (Or.inr ⟨h.symm, h2⟩)
  · exact Or.inr (Or.inl h)

instance : IsTrans MatchResult matchOrder := by
  constructor
  intro a b c hab hbc
  unfold matchOrder at *
  rcases hab with hab | ⟨hab, hab2⟩
  · rcases hbc with hbc | ⟨hbc, _⟩
    · exact Or.inl (hab.trans hbc)
    · exact Or.inl (hbc ▸ hab)
  · rcases hbc with hbc | ⟨hbc, hbc2⟩
    · exact Or.inl (hab ▸ hbc)
    · exact Or.inr ⟨hab.trans hbc, hab2.trans hbc2⟩

/-- The catalog cross-match `match_nearests_in_catalogs(runcatid, radius,
deRuiter_r)`: the joined and filtered candidate records, ordered by catalog
id and then by the selected `assoc_r`. -/
noncomputable def match_nearests_in_catalogs (db : Database) (runcatid : ℕ)
    (radius deRuiter_r : ℝ) : List MatchResult :=
  ((match_candidates db runcatid radius deRuiter_r).map fun t =>
      matchRow t.1 t.2.1 t.2.2).insertionSort matchOrder

/-- Primary-key uniqueness of the `extractedsource` table: no two distinct
rows share an id (the database enforces this; queries that look rows up by
id rely on it). -/
def UniqueXtrIds (db : Database) : Prop :=
  db.extractedsource.Pairwise fun a b => a.id ≠ b.id

lemma eq_of_mem_of_id_eq {l : List ExtractedSource}
    (h : l.Pairwise fun a b => a.id ≠ b.id) :
    ∀ a ∈ l, ∀ b ∈ l, a.id = b.id → a = b := by
  induction l with
  | nil => simp
  | cons x xs ih =>
    intro a ha b hb hid
    rcases List.mem_cons.mp ha with rfl | ha' <;> rcases List.mem_cons.mp hb with rfl | hb'
    · rfl
    · exact absurd hid ((List.pairwise_cons.mp h).1 b hb')
    · exact absurd hid.symm ((List.pairwise_cons.mp h).1 a ha')
    · exact ih (List.pairwise_cons.mp h).2 a ha' b hb' hid

lemma enrichAll_length (image_id code base : ℕ) (l : List Detection) :
    (enrichAll image_id code base l).length = l.length := by
  induction l generalizing base with
  | nil => rfl
  | cons d ds ih => simp [enrichAll, ih]

lemma enrichAll_extract_type (image_id code base : ℕ) (l : List Detection) :
    ∀ row ∈ enrichAll image_id code base l, row.extract_type = code := by
  induction l generalizing base with
  | nil => simp [enrichAll]
  | cons d ds ih =>
    intro row hrow
    rcases List.mem_cons.mp hrow with rfl | h
    · rfl
    · exact ih (base + 1) row h

lemma extract_type_code_eq_none {s : String} (h0 : s ≠ "blind") (h1 : s ≠ "ff_nd")
    (h2 : s ≠ "ff_ms") : extract_type_code s = none := by
  unfold extract_type_code
  split <;> simp_all

lemma extract_type_code_mem {s : String} {c : ℕ} (h : extract_type_code s = some c) :
    c = 0 ∨ c = 1 ∨ c = 2 := by
  unfold extract_type_code at h
  split at h <;> simp_all

/-- C9: a bulk insert called with zero detections performs no operation on
the store — the store comes back unchanged — and reports zero inserted,
with a success (not an error) result. -/
theorem C9_empty_insert (db : Database) (image_id : ℕ) (extract : String) :
    insert_extracted_sources db image_id [] extract = (db, Except.ok 0) := by
  simp [insert_extracted_sources]

/-- C5 counterexample: for a detection with `ew_sys_err = 0` and
`error_radius = 1` arcsec, the stored `uncertainty_ew = sqrt(0² + 1²)/3600`
has `uncertainty_ew² < error_radius²`, refuting the claimed
`uncertainty_ew² ≥ error_radius²` (the /3600 unit conversion makes the
stored value smaller, not larger, than the arcsec error radius). -/
noncomputable def d5 : Detection :=
  { ra := 0, decl := 0, ra_fit_err := 0, decl_fit_err := 0, f_peak := 0,
    f_peak_err := 0, f_int := 0, f_int_err := 0, det_sigma := 0,
    semimajor := 0, semiminor := 0, pa := 0, ew_sys_err := 0, ns_sys_err := 0,
    error_radius := some 1 }

/-- C5 counterexample: the claim `uncertainty_ew² ≥ error_radius²` fails on
the concrete detection `d5` (`ew_sys_err = 0`, `error_radius = 1`): the
stored uncertainty is `1/3600` of a degree while the error radius stays in
arcsec, so the claimed inequality is reversed. -/
theorem C5_counterexample :
    (enrich 1 0 1 d5).uncertainty_ew ^ 2 < (enrich 1 0 1 d5).error_radius ^ 2 := by
  show (Real.sqrt ((0 : ℝ) ^ 2 + ((1 : ℝ)) ^ 2) / 3600) ^ 2 < ((1 : ℝ)) ^ 2
  rw [show ((0 : ℝ) ^ 2 + ((1 : ℝ)) ^ 2) = 1 by norm_num, Real.sqrt_one]
  norm_num

/-- C5 amended: measured in arcsec — i.e. multiplying the stored degree
value back by 3600 — the transformed uncertainties do dominate the error
radius: `(3600·uncertainty_ew)² ≥ error_radius²` and
`(3600·uncertainty_ns)² ≥ error_radius²` hold for every input detection. -/
theorem C5_amended (image_id code rowid : ℕ) (d : Detection) :
    (3600 * (enrich image_id code rowid d).uncertainty_ew) ^ 2
        ≥ (enrich image_id code rowid d).error_radius ^ 2 ∧
    (3600 * (enrich image_id code rowid d).uncertainty_ns) ^ 2
        ≥ (enrich image_id code rowid d).error_radius ^ 2 := by
  show (3600 * (Real.sqrt (d.ew_sys_err ^ 2 + substitute_inf d.error_radius 360.0 ^ 2) / 3600)) ^ 2
        ≥ substitute_inf d.error_radius 360.0 ^ 2 ∧
      (3600 * (Real.sqrt (d.ns_sys_err ^ 2 + substitute_inf d.error_radius 360.0 ^ 2) / 3600)) ^ 2
        ≥ substitute_inf d.error_radius 360.0 ^ 2
  set er := substitute_inf d.error_radius 360.0 with her
  constructor
  · rw [mul_div_cancel₀ _ (by norm_num : (3600 : ℝ) ≠ 0),
      Real.sq_sqrt (by positivity)]
    nlinarith [sq_nonneg d.ew_sys_err]
  · rw [mul_div_cancel₀ _ (by norm_num : (3600 : ℝ) ≠ 0),
      Real.sq_sqrt (by positivity)]
    nlinarith [sq_nonneg d.ns_sys_err]

/-- C6: on a non-empty batch, an extract tag outside blind/ff_nd/ff_ms makes
`insert_extracted_sources` raise the ValueError before the INSERT runs, so
the store comes back exactly as it was with no row written; each of the
three recognized tags completes with a success result and appends rows that
all carry the corresponding numeric tag (blind ↦ 0, ff_nd ↦ 1, ff_ms ↦ 2,
as `extract_type_code` maps them). -/
theorem C6_insert_validation (db : Database) (image_id : ℕ)
    (results : List Detection) (extract : String) (hne : results ≠ []) :
    (extract ≠ "blind" → extract ≠ "ff_nd" → extract ≠ "ff_ms" →
        insert_extracted_sources db image_id results extract =
          (db, Except.error ("Not a valid extractedsource insert type: " ++ extract))) ∧
    (∀ code, extract_type_code extract = some code →
        ∃ rows, insert_extracted_sources db image_id results extract =
            ({ db with
                extractedsource := db.extractedsource ++ rows
                nextId := db.nextId + rows.length }, Except.ok rows.length) ∧
          rows.length = results.length ∧
          ∀ row ∈ rows, row.extract_type = code) := by
  obtain ⟨d, ds, rfl⟩ := List.exists_cons_of_ne_nil hne
  constructor
  · intro h0 h1 h2
    unfold insert_extracted_sources
    rw [extract_type_code_eq_none h0 h1 h2]
    rfl
  · intro code hcode
    refine ⟨enrichAll image_id code db.nextId (d :: ds), ?_, ?_, ?_⟩
    · unfold insert_extracted_sources
      rw [hcode]
      rfl
    · exact enrichAll_length image_id code db.nextId (d :: ds)
    · exact enrichAll_extract_type image_id code db.nextId (d :: ds)

/-- C6 witness: on a concrete one-detection batch with the unrecognized tag
"bogus", the insert reports the validation error and hands back the
untouched store. -/
theorem C6_insert_validation_witness :
    insert_extracted_sources
        { extractedsource := [], assocxtrsource := [], image := [],
          frequencyband := [], runningcatalog := [], catalog := [],
          catalogedsource := [], nextId := 1 } 1 [d5] "bogus" =
      ({ extractedsource := [], assocxtrsource := [], image := [],
         frequencyband := [], runningcatalog := [], catalog := [],
         catalogedsource := [], nextId := 1 },
       Except.error ("Not a valid extractedsource insert type: " ++ "bogus")) :=
  (C6_insert_validation _ 1 [d5] "bogus" (by simp)).1
    (by decide) (by decide) (by decide)

/-- C7: the deduplication pass deletes only rows whose stored
`extract_type` is 3 — with unique row ids, every row tagged otherwise
survives unchanged for every image and every theta/cutoff configuration —
and every row the bulk insert path appends is tagged 0, 1 or 2, hence is
preserved by every deduplication pass. -/
theorem C7_dedup_frame :
    (∀ db image_id deRuiter_r assoc_theta row, UniqueXtrIds db →
        row ∈ db.extractedsource → row.extract_type ≠ 3 →
        row ∈ (filter_userdetections_extracted_sources db image_id deRuiter_r
            assoc_theta).extractedsource) ∧
    (∀ db image_id results extract db' n, UniqueXtrIds db' →
        insert_extracted_sources db image_id results extract = (db', Except.ok n) →
        ∀ row ∈ db'.extractedsource, row ∉ db.extractedsource →
          ∀ image_id2 deRuiter_r assoc_theta,
            row ∈ (filter_userdetections_extracted_sources db' image_id2 deRuiter_r
                assoc_theta).extractedsource) := by
  have keep : ∀ db image_id deRuiter_r assoc_theta row, UniqueXtrIds db →
      row ∈ db.extractedsource → row.extract_type ≠ 3 →
      row ∈ (filter_userdetections_extracted_sources db image_id deRuiter_r
          assoc_theta).extractedsource := by
    intro db image_id deRuiter_r assoc_theta row huniq hmem het
    unfold filter_userdetections_extracted_sources
    refine List.mem_filter.mpr ⟨hmem, ?_⟩
    rw [decide_eq_true_eq]
    rintro ⟨x0, hx0, hid, -, het3, -⟩
    exact het (eq_of_mem_of_id_eq huniq row hmem x0 hx0 hid.symm ▸ het3)
  refine ⟨keep, ?_⟩
  intro db image_id results extract db' n huniq hins row hrow hnew image_id2 dr th
  refine keep db' image_id2 dr th row huniq hrow ?_
  by_cases hemp : results.isEmpty
  · unfold insert_extracted_sources at hins
    rw [if_pos hemp] at hins
    exact absurd (Prod.ext_iff.mp hins).1 (by rintro rfl; exact hnew hrow)
  · unfold insert_extracted_sources at hins
    rw [if_neg hemp] at hins
    rcases hc : extract_type_code extract with _ | code
    · rw [hc] at hins
      exact absurd (Prod.ext_iff.mp hins).2 (by simp)
    · rw [hc] at hins
      have hdb' : db'.extractedsource =
          db.extractedsource ++ enrichAll image_id code db.nextId results :=
        (congrArg (fun p => Database.extractedsource p.1) hins).symm
      rw [hdb'] at hrow
      rcases List.mem_append.mp hrow with h | h
      · exact absurd h hnew
      · have := enrichAll_extract_type image_id code db.nextId results row h
        rcases extract_type_code_mem hc with rfl | rfl | rfl <;> omega

/-- C8: the cross-match output is sorted by catalog id and, within one
catalog, by ascending selected `assoc_r` (so the groups per catalog are
contiguous and the first row of each group is that catalog's best match),
and it is a permutation of the whole filtered candidate list: no global
single best match is picked out. -/
theorem C8_match_ordering (db : Database) (runcatid : ℕ) (radius deRuiter_r : ℝ) :
    List.Pairwise matchOrder (match_nearests_in_catalogs db runcatid radius deRuiter_r) ∧
    (match_nearests_in_catalogs db runcatid radius deRuiter_r).Perm
      ((match_candidates db runcatid radius deRuiter_r).map fun t =>
        matchRow t.1 t.2.1 t.2.2) :=
  ⟨List.sorted_insertionSort matchOrder _, List.perm_insertionSort matchOrder _⟩

/-- C2: a cataloged source that passes the spatial prefilter (zone band,
declination band, RA band and the Cartesian dot-product radius test) shows
up in the cross-match result exactly when its midpoint-declination De
Ruiter radius is strictly below the caller-supplied cutoff. -/
theorem C2_match_iff (db : Database) (runcatid : ℕ) (radius deRuiter_r : ℝ)
    (r : RunningCatalog) (c : CatalogedSource) (k : Catalog)
    (hr : r ∈ db.runningcatalog)
    (hpk : ∀ r' ∈ db.runningcatalog, r'.id = runcatid → r' = r)
    (hrid : r.id = runcatid)
    (hc : c ∈ db.catalogedsource) (hk : k ∈ db.catalog) (hck : c.catalog = k.id)
    (hzone : zoneBand r.wm_decl radius c.zone)
    (hdecl : declBand r.wm_decl radius c.decl)
    (hra : raBand r.wm_ra r.wm_decl radius c.ra)
    (hdot : c.x * r.x + c.y * r.y + c.z * r.z > Real.cos (radians radius)) :
    matchRow r c k ∈ match_nearests_in_catalogs db runcatid radius deRuiter_r ↔
      deRuiterMidpoint r c < deRuiter_r := by
  unfold match_nearests_in_catalogs
  rw [List.mem_insertionSort, List.mem_map]
  constructor
  · rintro ⟨⟨r', c', k'⟩, hmem, heq⟩
    unfold match_candidates at hmem
    simp only [List.mem_flatMap] at hmem
    obtain ⟨r1, hr1, c1, hc1, k1, hk1, hmem⟩ := hmem
    split at hmem
    case isFalse => simp at hmem
    case isTrue hcond =>
      simp only [List.mem_singleton, Prod.mk.injEq] at hmem
      obtain ⟨rfl, rfl, rfl⟩ := hmem
      obtain rfl : r' = r := hpk r' hr1 hcond.1
      have hcra : c'.ra = c.ra := congrArg MatchResult.ra heq
      have hcdecl : c'.decl = c.decl := congrArg MatchResult.decl heq
      have hcew : c'.uncertainty_ew = c.uncertainty_ew :=
        congrArg MatchResult.uncertainty_ew heq
      have hcns : c'.uncertainty_ns = c.uncertainty_ns :=
        congrArg MatchResult.uncertainty_ns heq
      have hdr := hcond.2.2.2.2.2.2
      unfold deRuiterMidpoint at hdr ⊢
      rw [hcra, hcdecl, hcew, hcns] at hdr
      exact hdr
  · intro hdr
    refine ⟨(r, c, k), ?_, rfl⟩
    unfold match_candidates
    simp only [List.mem_flatMap]
    refine ⟨r, hr, c, hc, k, hk, ?_⟩
    rw [if_pos ⟨hrid, hzone, hdecl, hra, hdot, hck, hdr⟩]
    simp

/-- Fixture running source for the C2 witness: at (ra, decl) = (0, 0),
Cartesian (1, 0, 0), unit uncertainties. -/
noncomputable def r2fix : RunningCatalog :=
  { id := 1, wm_ra := 0, wm_decl := 0, wm_uncertainty_ew := 1,
    wm_uncertainty_ns := 1, x := 1, y := 0, z := 0 }

/-- Fixture cataloged source for the C2 witness: same position as `r2fix`,
catalog 5. -/
noncomputable def c2fix : CatalogedSource :=
  { id := 10, catsrcname := "J0000+0000", catalog := 5, ra := 0, decl := 0,
    uncertainty_ew := 1, uncertainty_ns := 1, zone := 0, x := 1, y := 0, z := 0 }

/-- Fixture catalog row for the C2 witness. -/
def k2fix : Catalog := { id := 5, name := "VLSS" }

/-- Fixture store for the C2 witness. -/
noncomputable def db2fix : Database :=
  { extractedsource := [], assocxtrsource := [], image := [],
    frequencyband := [], runningcatalog := [r2fix], catalog := [k2fix],
    catalogedsource := [c2fix], nextId := 1 }

/-- C2 witness: the prefilter hypotheses hold concretely for `c2fix` around
`r2fix` with a 90-degree radius, and the membership-iff-scored property
follows for the cutoff 3.7. -/
theorem C2_match_iff_witness :
    matchRow r2fix c2fix k2fix ∈ match_nearests_in_catalogs db2fix 1 90 3.7 ↔
      deRuiterMidpoint r2fix c2fix < 3.7 :=
  C2_match_iff db2fix 1 90 3.7 r2fix c2fix k2fix
    (by simp [db2fix])
    (by intro r' hr' _; simpa [db2fix] using hr')
    rfl
    (by simp [db2fix]) (by simp [db2fix]) rfl
    (by
      constructor
      · rw [show r2fix.wm_decl - 90 = ((-90 : ℤ) : ℝ) by norm_num [r2fix],
          Int.floor_intCast]
        norm_num [c2fix]
      · rw [show r2fix.wm_decl + 90 = ((90 : ℤ) : ℝ) by norm_num [r2fix],
          Int.floor_intCast]
        norm_num [c2fix])
    (by norm_num [declBand, r2fix, c2fix])
    (by
      have h0 : radians 0 = 0 := by unfold radians; ring
      norm_num [raBand, alpha, r2fix, c2fix, h0, Real.cos_zero])
    (by
      have h90 : radians 90 = Real.pi / 2 := by unfold radians; ring
      norm_num [r2fix, c2fix, h90, Real.cos_pi_div_two])

/-- C10: a light-curve query for an identifier with no association edges —
in particular an unknown identifier — returns the empty sequence (the query
is a pure read of the store, so no mutation is even expressible). -/
theorem C10_lightcurve_unknown (db : Database) (xtrsrcid : ℕ)
    (h : ∀ a ∈ db.assocxtrsource, a.xtrsrc ≠ xtrsrcid) :
    lightcurve db xtrsrcid = [] := by
  have hrows : lightcurveRows db xtrsrcid = [] := by
    unfold lightcurveRows
    rw [List.flatMap_eq_nil_iff]
    intro ex _
    rw [List.flatMap_eq_nil_iff]
    intro ax _
    rw [List.flatMap_eq_nil_iff]
    intro im _
    rw [List.flatMap_eq_nil_iff]
    intro bd _
    rw [if_neg]
    rintro ⟨⟨a, ha, hax, -⟩, -⟩
    exact h a ha hax
  unfold lightcurve
  rw [hrows]
  rfl

/-- Fixture store for the C10 witness: one association edge, for source 1
only. -/
def db10fix : Database :=
  { extractedsource := [], assocxtrsource := [{ runcat := 7, xtrsrc := 1 }],
    image := [], frequencyband := [], runningcatalog := [], catalog := [],
    catalogedsource := [], nextId := 1 }

/-- C10 witness: querying the unknown identifier 42 on `db10fix` yields the
empty light curve. -/
theorem C10_lightcurve_unknown_witness : lightcurve db10fix 42 = [] :=
  C10_lightcurve_unknown db10fix 42 (by
    intro a ha
    simp only [db10fix, List.mem_singleton] at ha
    subst ha
    decide)

/-- Fixture forced-null detection (stored extract_type 1, the ff_nd tag) at
the origin of image 1, with unit uncertainties. -/
noncomputable def xFFND : ExtractedSource :=
  { id := 1, ra := 0, decl := 0, ra_fit_err := 0, decl_fit_err := 0,
    f_peak := 0, f_peak_err := 0, f_int := 0, f_int_err := 0, det_sigma := 0,
    semimajor := 0, semiminor := 0, pa := 0, ew_sys_err := 0, ns_sys_err := 0,
    error_radius := 0, ra_err := 0, decl_err := 0, uncertainty_ew := 1,
    uncertainty_ns := 1, image := 1, zone := 0, x := 1, y := 0, z := 0,
    racosdecl := 0, extract_type := 1 }

/-- Fixture blind detection (stored extract_type 0) at the same position of
the same image. -/
noncomputable def xBlind : ExtractedSource :=
  { id := 2, ra := 0, decl := 0, ra_fit_err := 0, decl_fit_err := 0,
    f_peak := 0, f_peak_err := 0, f_int := 0, f_int_err := 0, det_sigma := 0,
    semimajor := 0, semiminor := 0, pa := 0, ew_sys_err := 0, ns_sys_err := 0,
    error_radius := 0, ra_err := 0, decl_err := 0, uncertainty_ew := 1,
    uncertainty_ns := 1, image := 1, zone := 0, x := 1, y := 0, z := 0,
    racosdecl := 0, extract_type := 0 }

/-- Fixture user-entry forced fit (stored extract_type 3) at the same
position of the same image. -/
noncomputable def xUser : ExtractedSource :=
  { id := 3, ra := 0, decl := 0, ra_fit_err := 0, decl_fit_err := 0,
    f_peak := 0, f_peak_err := 0, f_int := 0, f_int_err := 0, det_sigma := 0,
    semimajor := 0, semiminor := 0, pa := 0, ew_sys_err := 0, ns_sys_err := 0,
    error_radius := 0, ra_err := 0, decl_err := 0, uncertainty_ew := 1,
    uncertainty_ns := 1, image := 1, zone := 0, x := 1, y := 0, z := 0,
    racosdecl := 0, extract_type := 3 }

/-- Fixture store for the C1 counterexample: a forced-null and a blind
detection at the same sky position of image 1. -/
noncomputable def db1fix : Database :=
  { extractedsource := [xFFND, xBlind], assocxtrsource := [], image := [],
    frequencyband := [], runningcatalog := [], catalog := [],
    catalogedsource := [], nextId := 3 }

/-- Fixture store for the C1 amended witness: a user-entry forced fit and a
blind detection at the same sky position of image 1. -/
noncomputable def db1fixU : Database :=
  { extractedsource := [xUser, xBlind], assocxtrsource := [], image := [],
    frequencyband := [], runningcatalog := [], catalog := [],
    catalogedsource := [], nextId := 4 }

lemma zoneBand_origin : zoneBand (0 : ℝ) 0.03 0 := by
  constructor
  · have h := Int.floor_le_floor (show (0 : ℝ) - 0.03 ≤ 0 by norm_num)
    simpa using h
  · have h := Int.floor_le_floor (show (0 : ℝ) ≤ 0 + 0.03 by norm_num)
    simpa using h

lemma raBand_origin : raBand (0 : ℝ) 0 0.03 0 := by
  have h0 : radians 0 = 0 := by unfold radians; ring
  norm_num [raBand, alpha, h0, Real.cos_zero]

lemma deRuiterRows_same_pos {x0 x1 : ExtractedSource}
    (hra : x0.ra = x1.ra) (hdecl : x0.decl = x1.decl) :
    deRuiterRows x0 x1 = 0 := by
  unfold deRuiterRows
  rw [hra, hdecl]
  convert Real.sqrt_zero using 2
  ring

lemma userdel_cond_holds :
    userdetection_delete_cond db1fixU 1 3.717 0.03 xUser := by
  refine ⟨rfl, rfl, xBlind, by simp [db1fixU], rfl, Or.inl rfl, ?_, ?_, ?_, ?_⟩
  · exact zoneBand_origin
  · norm_num [declBand, xUser, xBlind]
  · exact raBand_origin
  · rw [@deRuiterRows_same_pos xUser xBlind rfl rfl]
    norm_num

/-- C1 counterexample: the forced-null detection `xFFND` coincides exactly
(same position, same image) with the blind detection `xBlind` — all the
spatial bands hold with theta 0.03 and the midpoint De Ruiter radius is 0,
below the cutoff 3.717 — yet the deduplication pass keeps it: the DELETE
targets only rows with stored extract_type 3, and ff_nd rows are stored
with extract_type 1 (indeed they sit on the genuine side of the
comparison, `x1.extract_type IN (0, 1, 2)`). -/
theorem C1_counterexample :
    xFFND.image = 1 ∧ xBlind.image = 1 ∧
    xFFND.extract_type = 1 ∧ xBlind.extract_type = 0 ∧
    zoneBand xFFND.decl 0.03 xBlind.zone ∧
    declBand xFFND.decl 0.03 xBlind.decl ∧
    raBand xFFND.ra xFFND.decl 0.03 xBlind.ra ∧
    deRuiterRows xFFND xBlind < 3.717 ∧
    xFFND ∈ (filter_userdetections_extracted_sources db1fix 1 3.717
        0.03).extractedsource := by
  refine ⟨rfl, rfl, rfl, rfl, zoneBand_origin, by norm_num [declBand, xFFND, xBlind],
    raBand_origin, ?_, ?_⟩
  · rw [@deRuiterRows_same_pos xFFND xBlind rfl rfl]
    norm_num
  · unfold filter_userdetections_extracted_sources
    refine List.mem_filter.mpr ⟨by simp [db1fix], ?_⟩
    rw [decide_eq_true_eq]
    rintro ⟨x0, hx0, hid, hcond⟩
    simp only [db1fix, List.mem_cons, List.not_mem_nil, or_false] at hx0
    rcases hx0 with rfl | rfl
    · have h3 := hcond.2.1
      simp [xFFND] at h3
    · simp [xFFND, xBlind] at hid

/-- C1 amended: a detection satisfying the delete condition — stored
extract_type 3, with a detection of stored extract_type 0, 1 or 2 of the
same image inside the theta bands and below the De Ruiter cutoff — is
removed by the deduplication pass, and a detection whose id satisfies the
delete condition for no row is retained; forced-null (ff_nd) detections are
stored with extract_type 1 and therefore are never removed. -/
theorem C1_amended (db : Database) (image_id : ℕ) (deRuiter_r assoc_theta : ℝ)
    (x0 : ExtractedSource) (hmem : x0 ∈ db.extractedsource) :
    (userdetection_delete_cond db image_id deRuiter_r assoc_theta x0 →
        x0 ∉ (filter_userdetections_extracted_sources db image_id deRuiter_r
            assoc_theta).extractedsource) ∧
    ((∀ x' ∈ db.extractedsource, x'.id = x0.id →
          ¬ userdetection_delete_cond db image_id deRuiter_r assoc_theta x') →
        x0 ∈ (filter_userdetections_extracted_sources db image_id deRuiter_r
            assoc_theta).extractedsource) := by
  constructor
  · intro hcond hmem'
    have hkeep := (List.mem_filter.mp hmem').2
    rw [decide_eq_true_eq] at hkeep
    exact hkeep ⟨x0, hmem, rfl, hcond⟩
  · intro hno
    refine List.mem_filter.mpr ⟨hmem, ?_⟩
    rw [decide_eq_true_eq]
    rintro ⟨x', hx', hid, hcond⟩
    exact hno x' hx' hid hcond

/-- C1 witness: on the concrete store `db1fixU`, the extract_type-3 row
`xUser` coincides with the blind row `xBlind`, and the deduplication pass
removes it. -/
theorem C1_amended_witness :
    xUser ∉ (filter_userdetections_extracted_sources db1fixU 1 3.717
        0.03).extractedsource :=
  (C1_amended db1fixU 1 3.717 0.03 xUser (by simp [db1fixU])).1 userdel_cond_holds

/-- C3 counterexample: the query sits at (ra, decl) = (0.01, 0) with theta
0.03 and the stored point at (359.99, 0): their true angular separation is
0.02 degrees (the difference wraps around the RA seam), yet the RA band
`[0.01 - alpha(0.03, 0), 0.01 + alpha(0.03, 0)] = [-0.02, 0.04]` excludes
the point, so the combined prefilter excludes a true match. -/
theorem C3_counterexample :
    Real.cos (radians 0.03) ≤
      cartDot (eq_to_cart 0.01 0) (eq_to_cart 359.99 0) ∧
    ¬ (zoneBand 0 0.03 (⌊(0 : ℝ)⌋) ∧ declBand 0 0.03 0 ∧
        raBand 0.01 0 0.03 359.99) := by
  constructor
  · have h0 : radians 0 = 0 := by unfold radians; ring
    have step1 : cartDot (eq_to_cart 0.01 0) (eq_to_cart 359.99 0)
        = Real.cos (radians 0.01 - radians 359.99) := by
      unfold cartDot eq_to_cart
      rw [h0, Real.cos_zero, Real.sin_zero, Real.cos_sub]
      ring
    have step2 : radians 0.01 - radians 359.99 = radians 0.02 - 2 * Real.pi := by
      unfold radians; ring
    rw [step1, step2, Real.cos_sub_two_pi]
    apply Real.cos_le_cos_of_nonneg_of_le_pi
    · unfold radians; positivity
    · unfold radians; nlinarith [Real.pi_pos]
    · unfold radians; nlinarith [Real.pi_pos]
  · intro h
    have hra := h.2.2
    unfold raBand at hra
    have halpha : alpha 0.03 0 = 0.03 := by
      have h0 : radians 0 = 0 := by unfold radians; ring
      unfold alpha
      rw [h0, Real.cos_zero]
      norm_num
    have hra2 := hra.2
    rw [halpha] at hra2
    norm_num at hra2

/-- C3 amended: the zone band and the declination band of the prefilter
never exclude a stored point whose true angular separation from the query
is at most theta (the separation hypothesis is phrased as
`cos(radians theta) ≤` the scalar product of the two unit vectors); the RA
band, however, can exclude a true match when the pair straddles the RA
0/360 seam, as the counterexample shows. -/
theorem C3_amended (theta ra1 decl1 ra2 decl2 : ℝ)
    (hth0 : 0 ≤ theta)
    (hd1 : |decl1| ≤ 90) (hd2 : |decl2| ≤ 90)
    (hsep : Real.cos (radians theta) ≤
      cartDot (eq_to_cart ra1 decl1) (eq_to_cart ra2 decl2)) :
    declBand decl1 theta decl2 ∧ zoneBand decl1 theta ⌊decl2⌋ := by
  have pi_pos := Real.pi_pos
  rw [abs_le] at hd1 hd2
  have habs : |decl1 - decl2| ≤ theta := by
    have hdot : cartDot (eq_to_cart ra1 decl1) (eq_to_cart ra2 decl2)
        = Real.cos (radians decl1) * Real.cos (radians decl2) *
            Real.cos (radians ra1 - radians ra2)
          + Real.sin (radians decl1) * Real.sin (radians decl2) := by
      unfold cartDot eq_to_cart
      rw [Real.cos_sub]
      ring
    have hc1 : 0 ≤ Real.cos (radians decl1) := by
      apply Real.cos_nonneg_of_mem_Icc
      constructor
      · unfold radians; nlinarith
      · unfold radians; nlinarith
    have hc2 : 0 ≤ Real.cos (radians decl2) := by
      apply Real.cos_nonneg_of_mem_Icc
      constructor
      · unfold radians; nlinarith
      · unfold radians; nlinarith
    have hle : cartDot (eq_to_cart ra1 decl1) (eq_to_cart ra2 decl2)
        ≤ Real.cos (radians decl1 - radians decl2) := by
      rw [hdot, Real.cos_sub (radians decl1) (radians decl2)]
      have hΔ := Real.cos_le_one (radians ra1 - radians ra2)
      nlinarith [mul_nonneg hc1 hc2]
    have hsep2 : Real.cos (radians theta)
        ≤ Real.cos (radians (decl1 - decl2)) := by
      have hrw : radians decl1 - radians decl2 = radians (decl1 - decl2) := by
        unfold radians; ring
      rw [← hrw]
      linarith
    have hcosabs : Real.cos (radians (decl1 - decl2))
        = Real.cos (radians |decl1 - decl2|) := by
      rcases abs_cases (decl1 - decl2) with ⟨heq, -⟩ | ⟨heq, -⟩
      · rw [heq]
      · rw [heq]
        unfold radians
        rw [show -(decl1 - decl2) * Real.pi / 180
            = -((decl1 - decl2) * Real.pi / 180) by ring, Real.cos_neg]
    by_contra hgt
    push_neg at hgt
    have h1 : radians theta < radians |decl1 - decl2| := by
      unfold radians; nlinarith
    have h2 : radians |decl1 - decl2| ≤ Real.pi := by
      have hb : |decl1 - decl2| ≤ 180 := by
        calc |decl1 - decl2| ≤ |decl1| + |decl2| := abs_sub decl1 decl2
        _ ≤ 180 := by linarith [abs_le.mpr hd1, abs_le.mpr hd2]
      unfold radians; nlinarith
    have h0' : 0 ≤ radians theta := by
      unfold radians
      have := mul_nonneg hth0 pi_pos.le
      linarith
    have hlt := Real.strictAntiOn_cos ⟨h0', h1.le.trans h2⟩ ⟨h0'.trans h1.le, h2⟩ h1
    rw [hcosabs] at hsep2
    linarith
  rw [abs_le] at habs
  constructor
  · exact ⟨by linarith [habs.2], by linarith [habs.1]⟩
  · exact ⟨Int.floor_le_floor (by linarith [habs.2]),
      Int.floor_le_floor (by linarith [habs.1])⟩

/-- C3 witness: for a stored point exactly at the query position (0, 0)
with theta 0.03, the separation hypothesis holds (the dot product is 1) and
the declination and zone bands admit the point. -/
theorem C3_amended_witness : declBand 0 0.03 0 ∧ zoneBand 0 0.03 ⌊(0 : ℝ)⌋ :=
  C3_amended 0.03 0 0 0 0 (by norm_num) (by norm_num) (by norm_num)
    (by
      have h0 : radians 0 = 0 := by unfold radians; ring
      have hdot1 : cartDot (eq_to_cart 0 0) (eq_to_cart 0 0) = 1 := by
        unfold cartDot eq_to_cart
        rw [h0, Real.cos_zero, Real.sin_zero]
        ring
      rw [hdot1]
      exact Real.cos_le_one _)

/-- Fixture detection 1 of image 1 for the C4 evaluation (the light-curve
query reads only id, image and the integrated flux columns). -/
noncomputable def ex4a : ExtractedSource :=
  { id := 1, ra := 0, decl := 0, ra_fit_err := 0, decl_fit_err := 0,
    f_peak := 0, f_peak_err := 0, f_int := 10, f_int_err := 1, det_sigma := 0,
    semimajor := 0, semiminor := 0, pa := 0, ew_sys_err := 0, ns_sys_err := 0,
    error_radius := 0, ra_err := 0, decl_err := 0, uncertainty_ew := 1,
    uncertainty_ns := 1, image := 1, zone := 0, x := 1, y := 0, z := 0,
    racosdecl := 0, extract_type := 0 }

/-- Fixture detection 2 of image 2 for the C4 evaluation. -/
noncomputable def ex4b : ExtractedSource :=
  { id := 2, ra := 0, decl := 0, ra_fit_err := 0, decl_fit_err := 0,
    f_peak := 0, f_peak_err := 0, f_int := 20, f_int_err := 2, det_sigma := 0,
    semimajor := 0, semiminor := 0, pa := 0, ew_sys_err := 0, ns_sys_err := 0,
    error_radius := 0, ra_err := 0, decl_err := 0, uncertainty_ew := 1,
    uncertainty_ns := 1, image := 2, zone := 0, x := 1, y := 0, z := 0,
    racosdecl := 0, extract_type := 0 }

/-- Fixture image 1: the later epoch (start time 5), inserted first. -/
noncomputable def im4a : ImageRow :=
  { id := 1, taustart_ts := 5, tau_time := 30, band := 3, stokes := 1 }

/-- Fixture image 2: the earlier epoch (start time 2), inserted second. -/
noncomputable def im4b : ImageRow :=
  { id := 2, taustart_ts := 2, tau_time := 40, band := 3, stokes := 1 }

/-- Fixture frequency band 3. -/
noncomputable def bd4 : FrequencyBand := { id := 3, freq_central := 150000000 }

/-- Fixture store for the C4 evaluation: detections 1 and 2 share running
source 7; the later epoch is inserted before the earlier one. -/
noncomputable def db4fix : Database :=
  { extractedsource := [ex4a, ex4b],
    assocxtrsource := [{ runcat := 7, xtrsrc := 1 }, { runcat := 7, xtrsrc := 2 }],
    image := [im4a, im4b], frequencyband := [bd4], runningcatalog := [],
    catalog := [], catalogedsource := [], nextId := 3 }

/-- C4 evaluation at the failing input: querying detection 1 on `db4fix`
returns the associated detections ordered by ascending start time (epoch 2
before epoch 5, although it was inserted after) — but each returned tuple
has EIGHT fields, because the SQL also selects `bd.freq_central`
(150000000 here), while the claim and the function's own docstring promise
exactly seven fields. -/
theorem C4_lightcurve_eval :
    lightcurve db4fix 1 =
      [(2, 40, 20, 2, 2, 3, 1, 150000000),
       (5, 30, 10, 1, 1, 3, 1, 150000000)] := rfl

end TKP
